import Mathlib

/-!
Verification development for the Parsons-problem tutor repository.

Part 1: the solution grader.
This section embeds `ValidationService.validateSolutionLocally` and
`ValidationService.getIndentLevel` from the validation service module, and the
solution-extraction loop of the local validation API route.  Strings are
modelled over their character lists; JavaScript `trim`, `split`, `includes`,
and `toLowerCase` are embedded as `jsTrim`, `jsSplitNewline`, `strContains`
and `jsToLower`.
-/

/-- Embedding of JavaScript `String.prototype.includes`: substring test. -/
def strContains (s pat : String) : Bool :=
  decide (pat.toList <:+: s.toList)

/-- Characters removed by JavaScript `trim` at both ends (whitespace). -/
def trimChars (l : List Char) : List Char :=
  ((l.dropWhile Char.isWhitespace).reverse.dropWhile Char.isWhitespace).reverse

/-- Embedding of JavaScript `String.prototype.trim`. -/
def jsTrim (s : String) : String :=
  String.mk (trimChars s.toList)

/-- Embedding of JavaScript `String.prototype.toLowerCase` (ASCII-adequate). -/
def jsToLower (s : String) : String :=
  String.mk (s.toList.map Char.toLower)

/-- Split a character list at every occurrence of the separator character,
mirroring JavaScript `split` with a one-character separator. -/
def splitOnCharList (c : Char) : List Char → List (List Char)
  | [] => [[]]
  | x :: xs =>
    if x = c then [] :: splitOnCharList c xs
    else
      match splitOnCharList c xs with
      | [] => [[x]]
      | y :: ys => (x :: y) :: ys

/-- Embedding of `text.split('\n')` from the source. -/
def jsSplitNewline (s : String) : List String :=
  (splitOnCharList (Char.ofNat 10) s.toList).map String.mk

/-- `ValidationService.getIndentLevel`: length of the leading-whitespace match
divided by 4 with floor, exactly as `Math.floor(leadingSpaces / 4)`. -/
def getIndentLevel (line : String) : Nat :=
  (line.toList.takeWhile Char.isWhitespace).length / 4

/-- The slice of `ParsonsOptions` the grader reads (`settings.options.can_indent`). -/
structure ParsonsOptions where
  can_indent : Bool
deriving DecidableEq

/-- The slice of `ParsonsSettings` the grader reads. -/
structure ParsonsSettings where
  initial : String
  options : ParsonsOptions
deriving DecidableEq

/-- Position-addressable rendering of the `details` strings produced by
`validateSolutionLocally`: each constructor captures the data interpolated
into the corresponding message template. -/
inductive Diagnostic where
  | correct
  | lengthMismatch (userLines correctLines : Nat)
  | contentMismatch (lineNumber : Nat)
  | indentMismatch (lineNumber expected actual : Nat)
deriving DecidableEq

/-- Return shape of `validateSolutionLocally`: `isCorrect` plus the diagnostic
data behind the `details` string. -/
structure GradeResult where
  isCorrect : Bool
  details : Diagnostic
deriving DecidableEq

/-- The extraction loop of `validateSolutionLocally` (lines 107-120): keep
each line of `settings.initial` unless it trims to empty or contains the
substring `#distractor`; kept lines stay untrimmed. -/
def extractCorrectLines (ini : String) : List String :=
  (jsSplitNewline ini).filter
    (fun line => !(jsTrim line == "") && !(strContains line "#distractor"))

/-- The comparison loop of `validateSolutionLocally` (lines 123-160): walk the
two line lists position by position carrying the 1-based line number; at each
position check trimmed content first and then, when indentation is enabled,
the indentation depth; return at the first failing check. -/
def compareLines (canIndent : Bool) : List String → List String → Nat → GradeResult
  | u :: us, c :: cs, n =>
    if jsTrim u ≠ jsTrim c then
      { isCorrect := false, details := Diagnostic.contentMismatch n }
    else if canIndent ∧ getIndentLevel u ≠ getIndentLevel c then
      { isCorrect := false,
        details := Diagnostic.indentMismatch n (getIndentLevel c) (getIndentLevel u) }
    else
      compareLines canIndent us cs (n + 1)
  | _, _, _ => { isCorrect := true, details := Diagnostic.correct }

/-- `ValidationService.validateSolutionLocally`: extract the expected lines,
fail on a line-count mismatch, otherwise run the per-position comparison. -/
def validateSolutionLocally (settings : ParsonsSettings) (solution : List String) :
    GradeResult :=
  let correctLines := extractCorrectLines settings.initial
  if solution.length ≠ correctLines.length then
    { isCorrect := false,
      details := Diagnostic.lengthMismatch solution.length correctLines.length }
  else
    compareLines settings.options.can_indent solution correctLines 1

/-- The extraction loop of the validation API route handler (part of
`pages/api` in the repository): the same filter as the local validator;
the route then trims each kept line when pushing it. -/
def handlerKeptLines (ini : String) : List String :=
  (jsSplitNewline ini).filter
    (fun line => !(jsTrim line == "") && !(strContains line "#distractor"))

/-- The expected solution sequence the API route compares against: kept lines,
trimmed (`correctLines.push(line.trim())`). -/
def handlerCorrectLines (ini : String) : List String :=
  (handlerKeptLines ini).map jsTrim

/-!
Part 2: the event model and the session feature engine (`EventLogger`).
Events carry a millisecond timestamp (modelled as a rational), a type string,
optional target, an output state hash, an optional input hash, and an optional
metadata payload; the engine state carries the session identity, the stored
event list, the running `BehavioralFeatures` record (JavaScript numbers
modelled as rationals), the state-visit histogram (an insertion-ordered
association list, as a JavaScript `Map`), and the two timestamps kept by the
class.
-/

/-- The metadata fields the feature engine inspects: `metadata?.success` and
`metadata?.errors` (a list of error-category type strings). `none` at the
outer level is an absent `metadata` object; `none` in a field is an absent
property of a present object. -/
structure EventMeta where
  success : Option Bool := none
  errors : Option (List String) := none
deriving DecidableEq

/-- Embedding of the `ParsonsEvent` record of the logging type declarations. -/
structure ParsonsEvent where
  time : ℚ
  type : String
  target : Option String := none
  output : String
  input : Option String := none
  metadata : Option EventMeta := none
deriving DecidableEq

/-- Embedding of the `BehavioralFeatures` record; every field is a JavaScript
number, modelled as a rational. -/
structure BehavioralFeatures where
  totalTime : ℚ
  timeToFirstFeedback : ℚ
  avgTimeBetweenActions : ℚ
  manipulationCount : ℚ
  feedbackCount : ℚ
  manipulationToFeedbackRatio : ℚ
  uniqueStates : ℚ
  stateChangeRate : ℚ
  stateRevisits : ℚ
  maxVisitsToState : ℚ
  successRate : ℚ
  consecutiveFailures : ℚ
  incorrectPositionErrors : ℚ
  incorrectIndentErrors : ℚ
  widgetHintCount : ℚ
  socraticHintCount : ℚ
  totalHintCount : ℚ
  hintsPerAction : ℚ
  timeToFirstHint : ℚ
  avgTimeBetweenHints : ℚ
deriving DecidableEq

/-- The all-zero features record built by the `EventLogger` constructor. -/
def emptyFeatures : BehavioralFeatures :=
  { totalTime := 0, timeToFirstFeedback := 0, avgTimeBetweenActions := 0,
    manipulationCount := 0, feedbackCount := 0, manipulationToFeedbackRatio := 0,
    uniqueStates := 0, stateChangeRate := 0, stateRevisits := 0,
    maxVisitsToState := 0, successRate := 0, consecutiveFailures := 0,
    incorrectPositionErrors := 0, incorrectIndentErrors := 0,
    widgetHintCount := 0, socraticHintCount := 0, totalHintCount := 0,
    hintsPerAction := 0, timeToFirstHint := 0, avgTimeBetweenHints := 0 }

/-- Mutable state of one `EventLogger` instance. -/
structure LoggerState where
  sessionId : String
  studentId : String
  problemId : String
  schoolId : String
  events : List ParsonsEvent
  features : BehavioralFeatures
  stateHistory : List (String × Nat)
  sessionStartTime : ℚ
  lastEventTime : ℚ
deriving DecidableEq

/-- The `EventLogger` constructor: empty history, zero features, both
timestamps set to the construction time (`Date.now()`). -/
def mkEventLogger (sessionId studentId problemId schoolId : String) (now : ℚ) :
    LoggerState :=
  { sessionId := sessionId, studentId := studentId, problemId := problemId,
    schoolId := schoolId, events := [], features := emptyFeatures,
    stateHistory := [], sessionStartTime := now, lastEventTime := now }

/-- `Math.min(...)` over a nonempty list of rationals (0 on the empty list,
which the source never hits). -/
def listMinQ : List ℚ → ℚ
  | [] => 0
  | x :: xs => xs.foldl min x

/-- Sum of consecutive differences `xs[i] - xs[i-1]`, as computed by the
`for` loops of `updateFeatures` and `updateHintFeatures`. -/
def consecDiffSum : List ℚ → ℚ
  | a :: b :: rest => (b - a) + consecDiffSum (b :: rest)
  | _ => 0

/-- One `stateHistory.set(key, (stateHistory.get(key) || 0) + 1)` step on the
insertion-ordered histogram. -/
def mapBump (k : String) : List (String × Nat) → List (String × Nat)
  | [] => [(k, 1)]
  | (k2, v) :: rest =>
    if k2 = k then (k2, v + 1) :: rest else (k2, v) :: mapBump k rest

/-- `event.metadata?.success` as read by the success-pattern scan. -/
def metaSuccess (e : ParsonsEvent) : Option Bool :=
  e.metadata.bind (fun m => m.success)

/-- The consecutive-failure scan of `updateSuccessPatterns`: longest run of
feedback events with `metadata?.success === false`. -/
def maxFailStreak (cur mx : Nat) : List ParsonsEvent → Nat
  | [] => mx
  | e :: rest =>
    if metaSuccess e = some false then maxFailStreak (cur + 1) (max mx (cur + 1)) rest
    else maxFailStreak 0 mx rest

/-- `EventLogger.getActualStartTime`: earliest `init` timestamp, else earliest
event timestamp, else the construction time. -/
def getActualStartTime (s : LoggerState) : ℚ :=
  match s.events with
  | [] => s.sessionStartTime
  | _ =>
    let inits := s.events.filter (fun e => e.type == "init")
    if inits.isEmpty then listMinQ (s.events.map (fun e => e.time))
    else listMinQ (inits.map (fun e => e.time))

/-- `EventLogger.updateSuccessPatterns`: recompute `successRate` and
`consecutiveFailures` from the feedback subsequence of the stored events, then
accumulate error-category counters from the metadata of the new feedback
event when it carries an `errors` array. -/
def updateSuccessPatterns (feedbackEvent : ParsonsEvent) (events : List ParsonsEvent)
    (f0 : BehavioralFeatures) : BehavioralFeatures :=
  let feedbackEvents := events.filter (fun e => e.type == "feedback")
  let successfulAttempts :=
    (feedbackEvents.filter (fun e => metaSuccess e == some true)).length
  let f1 := { f0 with
    successRate := (successfulAttempts : ℚ) / (feedbackEvents.length : ℚ) }
  let f2 := { f1 with
    consecutiveFailures := ((maxFailStreak 0 0 feedbackEvents : Nat) : ℚ) }
  match feedbackEvent.metadata with
  | none => f2
  | some m =>
    match m.errors with
    | none => f2
    | some errs =>
      { f2 with
        incorrectPositionErrors := f2.incorrectPositionErrors +
          (((errs.filter (fun t => t == "incorrectPosition")).length : Nat) : ℚ),
        incorrectIndentErrors := f2.incorrectIndentErrors +
          (((errs.filter (fun t => t == "incorrectIndent")).length : Nat) : ℚ) }

/-- The fixed action-type set of the hints-per-action denominator. -/
def actionTypeList : List String :=
  ["moveOutput", "addOutput", "removeOutput", "moveInput", "feedback", "toggle"]

/-- Whether an event type string is one of the two hint types. -/
def isHintType (t : String) : Bool :=
  t == "X-Hint.Widget" || t == "X-Hint.Socratic"

/-- `EventLogger.updateHintFeatures`: hint counters, hints-per-action ratio,
one-shot time-to-first-hint (guarded by the field still being 0), and the mean
inter-hint interval. -/
def updateHintFeatures (event : ParsonsEvent) (events : List ParsonsEvent)
    (actualStartTime : ℚ) (f0 : BehavioralFeatures) : BehavioralFeatures :=
  let f1 :=
    if event.type = "X-Hint.Widget" then
      { f0 with widgetHintCount := f0.widgetHintCount + 1 }
    else if event.type = "X-Hint.Socratic" then
      { f0 with socraticHintCount := f0.socraticHintCount + 1 }
    else f0
  let f2 := { f1 with totalHintCount := f1.widgetHintCount + f1.socraticHintCount }
  let actionEvents := events.filter (fun e => actionTypeList.contains e.type)
  let f3 := { f2 with hintsPerAction :=
    if actionEvents.length > 0 then f2.totalHintCount / (actionEvents.length : ℚ)
    else 0 }
  let f4 :=
    if isHintType event.type = true ∧ f3.timeToFirstHint = (0 : ℚ) then
      { f3 with timeToFirstHint := event.time - actualStartTime }
    else f3
  let hintEvents := events.filter (fun e => isHintType e.type)
  if hintEvents.length > 1 then
    { f4 with avgTimeBetweenHints :=
        consecDiffSum (hintEvents.map (fun e => e.time)) /
          ((hintEvents.length : ℚ) - 1) }
  else f4

/-- `this.features.totalTime = timeSinceStart`. -/
def stepTotalTime (timeSinceStart : ℚ) (f : BehavioralFeatures) : BehavioralFeatures :=
  { f with totalTime := timeSinceStart }

/-- The guarded `timeToFirstFeedback` assignment of `updateFeatures`: fires
only on a feedback event while the field is still 0 (the negative-duration
branch of the source merely logs a console warning). -/
def stepTimeToFirstFeedback (eventType : String) (timeSinceStart : ℚ)
    (f : BehavioralFeatures) : BehavioralFeatures :=
  if eventType = "feedback" ∧ f.timeToFirstFeedback = (0 : ℚ) then
    { f with timeToFirstFeedback := timeSinceStart }
  else f

/-- The `avgTimeBetweenActions` rescan of `updateFeatures`, over the stored
event list (which already contains the new event). -/
def stepAvgActions (events : List ParsonsEvent) (f : BehavioralFeatures) :
    BehavioralFeatures :=
  if events.length > 1 then
    { f with avgTimeBetweenActions :=
        consecDiffSum (events.map (fun e => e.time)) / ((events.length : ℚ) - 1) }
  else f

/-- The manipulation-count increment of `updateFeatures`. -/
def stepManip (eventType : String) (f : BehavioralFeatures) : BehavioralFeatures :=
  if ["moveOutput", "addOutput", "removeOutput", "moveInput"].contains eventType then
    { f with manipulationCount := f.manipulationCount + 1 }
  else f

/-- The feedback-count increment of `updateFeatures`. -/
def stepFeedbackCount (eventType : String) (f : BehavioralFeatures) :
    BehavioralFeatures :=
  if eventType = "feedback" then { f with feedbackCount := f.feedbackCount + 1 }
  else f

/-- The unconditional ratio recomputation of `updateFeatures`:
`manipulationCount / Math.max(1, feedbackCount)`. -/
def stepRatio (f : BehavioralFeatures) : BehavioralFeatures :=
  { f with manipulationToFeedbackRatio :=
      f.manipulationCount / max 1 f.feedbackCount }

/-- The state-exploration block of `updateFeatures`, executed only when the
event carries a truthy `output` hash; `hist` is the histogram after the
`stateHistory.set` call and `n` is the current stored-event count. -/
def stepStateExploration (output : String) (hist : List (String × Nat)) (n : Nat)
    (f : BehavioralFeatures) : BehavioralFeatures :=
  if output = "" then f
  else
    let fa := { f with uniqueStates := ((hist.length : Nat) : ℚ) }
    let fb := { fa with stateChangeRate := fa.uniqueStates / (n : ℚ) }
    let fc := { fb with stateRevisits :=
      (((hist.filter (fun p : String × Nat => p.2 > 1)).length : Nat) : ℚ) }
    { fc with maxVisitsToState :=
      if hist.length > 0 then
        (((hist.map (fun p : String × Nat => p.2)).foldl max 0 : Nat) : ℚ)
      else 0 }

/-- `EventLogger.updateFeatures`, called with the new event already appended
to `events`: the assignments of the source method in source order — timing
features, the guarded time-to-first-feedback, the running average of
inter-action intervals, action counters, the manipulation-to-feedback ratio,
the state-exploration block (only when the event carries a truthy `output`
hash), the success patterns (only on feedback events), and the hint
features. -/
def updateFeatures (event : ParsonsEvent) (s : LoggerState) : LoggerState :=
  let actualStartTime := getActualStartTime s
  let timeSinceStart := event.time - actualStartTime
  let f1 := stepTotalTime timeSinceStart s.features
  let f2 := stepTimeToFirstFeedback event.type timeSinceStart f1
  let f3 := stepAvgActions s.events f2
  let f4 := stepManip event.type f3
  let f5 := stepFeedbackCount event.type f4
  let f6 := stepRatio f5
  let hist :=
    if event.output = "" then s.stateHistory else mapBump event.output s.stateHistory
  let f7 := stepStateExploration event.output hist s.events.length f6
  let f8 :=
    if event.type = "feedback" then updateSuccessPatterns event s.events f7 else f7
  let f9 := updateHintFeatures event s.events actualStartTime f8
  { s with features := f9, stateHistory := hist }

/-- `EventLogger.logEvent`: clamp a falsy timestamp to now, append the event,
update the features, remember the last event time. -/
def logEvent (now : ℚ) (event0 : ParsonsEvent) (s : LoggerState) : LoggerState :=
  let event := if event0.time = 0 then { event0 with time := now } else event0
  let s1 := { s with events := s.events ++ [event] }
  let s2 := updateFeatures event s1
  { s2 with lastEventTime := event.time }

/-- The snapshot record returned by `EventLogger.getSessionSnapshot`. -/
structure SessionSnapshot where
  sessionId : String
  studentId : String
  problemId : String
  schoolId : String
  startTime : ℚ
  endTime : ℚ
  events : List ParsonsEvent
  features : BehavioralFeatures
  stateHistory : List (String × Nat)
deriving DecidableEq

/-- `EventLogger.getSessionSnapshot`: identity fields, the recomputed start
time, the last event time, and copies of the event list, features record and
state histogram. -/
def getSessionSnapshot (s : LoggerState) : SessionSnapshot :=
  { sessionId := s.sessionId, studentId := s.studentId, problemId := s.problemId,
    schoolId := s.schoolId, startTime := getActualStartTime s,
    endTime := s.lastEventTime, events := s.events, features := s.features,
    stateHistory := s.stateHistory }

/-- Number of stored events of a given type string. -/
def countType (t : String) (l : List ParsonsEvent) : Nat :=
  (l.filter (fun e => e.type == t)).length

/-- Ingest a list of events in order; the wall clock passed for the falsy-time
fallback is each event's own stamp. -/
def ingestList (l : List ParsonsEvent) (s : LoggerState) : LoggerState :=
  l.foldl (fun st e => logEvent e.time e st) s

/-!
Part 3: the widget adapter (`ParsonsWidgetAdapter`).
The adapter functions are modelled as state transformers over `LoggerState`;
the widget-supplied data (current hashes, feedback result, native log entry)
are passed as arguments, and `Date.now()` at the call is the `now` argument.
-/

/-- `ParsonsWidgetAdapter.mapActionToType`: keyword fallback classification of
an `action` string, tried in source order against the lowercased action. -/
def mapActionToType (action : String) : String :=
  let a := jsToLower action
  if strContains a "move" then "moveOutput"
  else if strContains a "add" then "addOutput"
  else if strContains a "remove" || strContains a "delete" then "removeOutput"
  else if strContains a "feedback" || strContains a "check" then "feedback"
  else "unknown"

/-- JavaScript truthiness of an optional string: absent or empty is falsy. -/
def strFalsy : Option String → Bool
  | none => true
  | some s => s == ""

/-- The event-type determination of `captureWidgetEvent`: start from the
literal `type` field; when that is falsy and an `action` string is truthy,
classify through `mapActionToType`; a still-falsy result becomes `unknown`
(the trailing `eventType || 'unknown'`). -/
def determineEventType (ty ac : Option String) : String :=
  let ty1 :=
    if strFalsy ty then
      match ac with
      | some a => if a = "" then ty else some (mapActionToType a)
      | none => ty
    else ty
  match ty1 with
  | none => "unknown"
  | some t => if t = "" then "unknown" else t

/-- The fields of a native widget log entry that `captureWidgetEvent` reads. -/
structure WidgetLogEntry where
  time : Option ℚ := none
  type : Option String := none
  action : Option String := none
  target : Option String := none
  output : Option String := none
  input : Option String := none
  success : Option Bool := none
  errors : Option (List String) := none
  log_errors : Option (List String) := none
deriving DecidableEq

/-- JavaScript `a || b` for a string against a fallback. -/
def orElseStr (v : Option String) (fb : String) : String :=
  match v with
  | some s => if s = "" then fb else s
  | none => fb

/-- `ParsonsWidgetAdapter.captureWidgetEvent`: translate a native log entry
into a `ParsonsEvent` (type from the literal field or the action-keyword
fallback, timestamp from the entry or now, hashes from the entry or the
widget, feedback metadata only on feedback-typed events) and hand it to
`logEvent`. `widgetOut` is `solutionHash()`; `widgetInp` is the trash hash
when a trash tray is configured. -/
def captureWidgetEvent (now : ℚ) (widgetOut : String) (widgetInp : Option String)
    (entry : WidgetLogEntry) (s : LoggerState) : LoggerState :=
  let eventType := determineEventType entry.type entry.action
  let t :=
    match entry.time with
    | some t0 => if t0 = 0 then now else t0
    | none => now
  let md : EventMeta :=
    if eventType = "feedback" then
      { success := entry.success,
        errors := some (match entry.errors with
          | some l => l
          | none => match entry.log_errors with
            | some l => l
            | none => []) }
    else { success := none, errors := none }
  logEvent now
    { time := t, type := eventType, target := entry.target,
      output := orElseStr entry.output widgetOut,
      input := (match entry.input with
        | some i => if i = "" then widgetInp else some i
        | none => widgetInp),
      metadata := some md } s

/-- `ParsonsWidgetAdapter.logInitialState`: emit an `init` event carrying the
current widget hashes, but only when the stored history has no `init` event
yet. -/
def logInitialState (now : ℚ) (widgetOut : String) (widgetInp : Option String)
    (md : Option EventMeta) (s : LoggerState) : LoggerState :=
  let hasInit := s.events.any (fun e => e.type == "init")
  if hasInit then s
  else
    logEvent now
      { time := now, type := "init", output := widgetOut, input := widgetInp,
        metadata := md } s

/-- The logging decision of the wrapped `getFeedback` method
(`interceptGetFeedback`): look at the last three stored events; when one of
them is a feedback event stamped within one second of now, skip; otherwise log
a feedback event carrying the computed feedback result and the current
hashes. -/
def getFeedbackCapture (now : ℚ) (fbSuccess : Bool) (fbErrors : List String)
    (widgetOut : String) (widgetInp : Option String) (s : LoggerState) :
    LoggerState :=
  let recentEvents := s.events.drop (s.events.length - 3)
  let hasFeedbackEvent := recentEvents.any
    (fun e => e.type == "feedback" && decide (|e.time - now| < 1000))
  if hasFeedbackEvent then s
  else
    logEvent now
      { time := now, type := "feedback", output := widgetOut, input := widgetInp,
        metadata := some { success := some fbSuccess, errors := some fbErrors } } s


/-!
Concrete fixtures used by the closed theorems below: a freshly constructed
engine and a few concrete events and intermediate states.
-/

/-- A freshly constructed engine (construction time 0). -/
def freshLogger : LoggerState :=
  mkEventLogger "session" "student" "problem" "school" 0

/-- A concrete `init` event at a given time. -/
def initEventAt (t : ℚ) : ParsonsEvent :=
  { time := t, type := "init", output := "h0" }

/-- A concrete failed `feedback` event at a given time. -/
def feedbackEventAt (t : ℚ) (out : String) : ParsonsEvent :=
  { time := t, type := "feedback", output := out,
    metadata := some { success := some false, errors := some [] } }

/-- A concrete `moveOutput` event at a given time. -/
def moveEventAt (t : ℚ) (out : String) : ParsonsEvent :=
  { time := t, type := "moveOutput", output := out }

/-- A run in which the native log-append channel captured a feedback event at
time 1000 and three move events followed within the same second. -/
def c4PreState : LoggerState :=
  logEvent 1003 (moveEventAt 1003 "h3")
    (logEvent 1002 (moveEventAt 1002 "h2")
      (logEvent 1001 (moveEventAt 1001 "h1")
        (captureWidgetEvent 1000 "h0" none
          { type := some "feedback", time := some 1000, success := some false,
            errors := some [] }
          freshLogger)))

/-- A run whose most recent event is the feedback event captured through the
log-append channel at time 1000. -/
def c4SkipState : LoggerState :=
  logEvent 1000 (feedbackEventAt 1000 "hq") freshLogger

/-- An engine state whose one-shot timing features are already recorded. -/
def c6State : LoggerState :=
  { freshLogger with features :=
      { emptyFeatures with timeToFirstFeedback := 5, timeToFirstHint := 7 } }

/-- Two moves, the second of which carries no output hash. -/
def c8State : LoggerState :=
  logEvent 200 { time := 200, type := "moveOutput", output := "" }
    (logEvent 100 (moveEventAt 100 "h1") freshLogger)


/-!
Part 4: helper lemmas about the feature-update pipeline.
The frame lemmas record which feature fields each update step leaves
untouched; they drive the engine-level theorems below.
-/

/-- The success-pattern update does not touch the manipulation counter. -/
theorem updateSuccessPatterns_manip (fe : ParsonsEvent) (evs : List ParsonsEvent)
    (f : BehavioralFeatures) :
    (updateSuccessPatterns fe evs f).manipulationCount = f.manipulationCount := by
  obtain ⟨t, ty, tg, o, i, md⟩ := fe
  rcases md with _ | ⟨ms, me⟩
  · rfl
  · rcases me with _ | l <;> rfl

/-- The success-pattern update does not touch the feedback counter. -/
theorem updateSuccessPatterns_fb (fe : ParsonsEvent) (evs : List ParsonsEvent)
    (f : BehavioralFeatures) :
    (updateSuccessPatterns fe evs f).feedbackCount = f.feedbackCount := by
  obtain ⟨t, ty, tg, o, i, md⟩ := fe
  rcases md with _ | ⟨ms, me⟩
  · rfl
  · rcases me with _ | l <;> rfl

/-- The success-pattern update does not touch the manipulation-to-feedback
ratio. -/
theorem updateSuccessPatterns_ratio (fe : ParsonsEvent) (evs : List ParsonsEvent)
    (f : BehavioralFeatures) :
    (updateSuccessPatterns fe evs f).manipulationToFeedbackRatio =
      f.manipulationToFeedbackRatio := by
  obtain ⟨t, ty, tg, o, i, md⟩ := fe
  rcases md with _ | ⟨ms, me⟩
  · rfl
  · rcases me with _ | l <;> rfl

/-- The success-pattern update does not touch time-to-first-feedback. -/
theorem updateSuccessPatterns_tFF (fe : ParsonsEvent) (evs : List ParsonsEvent)
    (f : BehavioralFeatures) :
    (updateSuccessPatterns fe evs f).timeToFirstFeedback = f.timeToFirstFeedback := by
  obtain ⟨t, ty, tg, o, i, md⟩ := fe
  rcases md with _ | ⟨ms, me⟩
  · rfl
  · rcases me with _ | l <;> rfl

/-- The success-pattern update does not touch time-to-first-hint. -/
theorem updateSuccessPatterns_tFH (fe : ParsonsEvent) (evs : List ParsonsEvent)
    (f : BehavioralFeatures) :
    (updateSuccessPatterns fe evs f).timeToFirstHint = f.timeToFirstHint := by
  obtain ⟨t, ty, tg, o, i, md⟩ := fe
  rcases md with _ | ⟨ms, me⟩
  · rfl
  · rcases me with _ | l <;> rfl

/-- The success-pattern update does not touch the state-change rate. -/
theorem updateSuccessPatterns_scr (fe : ParsonsEvent) (evs : List ParsonsEvent)
    (f : BehavioralFeatures) :
    (updateSuccessPatterns fe evs f).stateChangeRate = f.stateChangeRate := by
  obtain ⟨t, ty, tg, o, i, md⟩ := fe
  rcases md with _ | ⟨ms, me⟩
  · rfl
  · rcases me with _ | l <;> rfl

/-- The success-pattern update does not touch the distinct-state counter. -/
theorem updateSuccessPatterns_us (fe : ParsonsEvent) (evs : List ParsonsEvent)
    (f : BehavioralFeatures) :
    (updateSuccessPatterns fe evs f).uniqueStates = f.uniqueStates := by
  obtain ⟨t, ty, tg, o, i, md⟩ := fe
  rcases md with _ | ⟨ms, me⟩
  · rfl
  · rcases me with _ | l <;> rfl

/-- The hint-feature update does not touch the manipulation counter. -/
theorem updateHintFeatures_manip (e : ParsonsEvent) (evs : List ParsonsEvent)
    (t : ℚ) (f : BehavioralFeatures) :
    (updateHintFeatures e evs t f).manipulationCount = f.manipulationCount := by
  simp only [updateHintFeatures]
  split_ifs <;> rfl

/-- The hint-feature update does not touch the feedback counter. -/
theorem updateHintFeatures_fb (e : ParsonsEvent) (evs : List ParsonsEvent)
    (t : ℚ) (f : BehavioralFeatures) :
    (updateHintFeatures e evs t f).feedbackCount = f.feedbackCount := by
  simp only [updateHintFeatures]
  split_ifs <;> rfl

/-- The hint-feature update does not touch the manipulation-to-feedback
ratio. -/
theorem updateHintFeatures_ratio (e : ParsonsEvent) (evs : List ParsonsEvent)
    (t : ℚ) (f : BehavioralFeatures) :
    (updateHintFeatures e evs t f).manipulationToFeedbackRatio =
      f.manipulationToFeedbackRatio := by
  simp only [updateHintFeatures]
  split_ifs <;> rfl

/-- The hint-feature update does not touch time-to-first-feedback. -/
theorem updateHintFeatures_tFF (e : ParsonsEvent) (evs : List ParsonsEvent)
    (t : ℚ) (f : BehavioralFeatures) :
    (updateHintFeatures e evs t f).timeToFirstFeedback = f.timeToFirstFeedback := by
  simp only [updateHintFeatures]
  split_ifs <;> rfl

/-- The hint-feature update does not touch the state-change rate. -/
theorem updateHintFeatures_scr (e : ParsonsEvent) (evs : List ParsonsEvent)
    (t : ℚ) (f : BehavioralFeatures) :
    (updateHintFeatures e evs t f).stateChangeRate = f.stateChangeRate := by
  simp only [updateHintFeatures]
  split_ifs <;> rfl

/-- The hint-feature update does not touch the distinct-state counter. -/
theorem updateHintFeatures_us (e : ParsonsEvent) (evs : List ParsonsEvent)
    (t : ℚ) (f : BehavioralFeatures) :
    (updateHintFeatures e evs t f).uniqueStates = f.uniqueStates := by
  simp only [updateHintFeatures]
  split_ifs <;> rfl

/-- A nonzero time-to-first-hint survives the hint-feature update: the
assignment is guarded by the field still being 0. -/
theorem updateHintFeatures_tFH (e : ParsonsEvent) (evs : List ParsonsEvent)
    (t : ℚ) (f : BehavioralFeatures) (h : f.timeToFirstHint ≠ 0) :
    (updateHintFeatures e evs t f).timeToFirstHint = f.timeToFirstHint := by
  simp only [updateHintFeatures]
  split_ifs <;> simp_all

/-- `logEvent` only appends to the stored event list. -/
theorem logEvent_events (now : ℚ) (ev : ParsonsEvent) (s : LoggerState) :
    (logEvent now ev s).events =
      s.events ++ [if ev.time = 0 then { ev with time := now } else ev] := rfl

/-!
Projection lemmas for the per-assignment steps of `updateFeatures`: each
records that a step leaves a given feature field unchanged (or what it sets
it to).
-/

/-- `stepTotalTime` leaves `manipulationCount` unchanged. -/
theorem stepTotalTime_manip (t : ℚ) (f : BehavioralFeatures) :
    (stepTotalTime t f).manipulationCount = f.manipulationCount := rfl

/-- `stepTotalTime` leaves `feedbackCount` unchanged. -/
theorem stepTotalTime_fb (t : ℚ) (f : BehavioralFeatures) :
    (stepTotalTime t f).feedbackCount = f.feedbackCount := rfl

/-- `stepTotalTime` leaves `manipulationToFeedbackRatio` unchanged. -/
theorem stepTotalTime_ratio (t : ℚ) (f : BehavioralFeatures) :
    (stepTotalTime t f).manipulationToFeedbackRatio = f.manipulationToFeedbackRatio := rfl

/-- `stepTotalTime` leaves `timeToFirstFeedback` unchanged. -/
theorem stepTotalTime_tFF (t : ℚ) (f : BehavioralFeatures) :
    (stepTotalTime t f).timeToFirstFeedback = f.timeToFirstFeedback := rfl

/-- `stepTotalTime` leaves `timeToFirstHint` unchanged. -/
theorem stepTotalTime_tFH (t : ℚ) (f : BehavioralFeatures) :
    (stepTotalTime t f).timeToFirstHint = f.timeToFirstHint := rfl

/-- `stepTotalTime` leaves `stateChangeRate` unchanged. -/
theorem stepTotalTime_scr (t : ℚ) (f : BehavioralFeatures) :
    (stepTotalTime t f).stateChangeRate = f.stateChangeRate := rfl

/-- `stepTotalTime` leaves `uniqueStates` unchanged. -/
theorem stepTotalTime_us (t : ℚ) (f : BehavioralFeatures) :
    (stepTotalTime t f).uniqueStates = f.uniqueStates := rfl

/-- `stepTimeToFirstFeedback` leaves `manipulationCount` unchanged. -/
theorem stepTimeToFirstFeedback_manip (ty : String) (t : ℚ) (f : BehavioralFeatures) :
    (stepTimeToFirstFeedback ty t f).manipulationCount = f.manipulationCount := by
  simp only [stepTimeToFirstFeedback]
  split_ifs <;> rfl

/-- `stepTimeToFirstFeedback` leaves `feedbackCount` unchanged. -/
theorem stepTimeToFirstFeedback_fb (ty : String) (t : ℚ) (f : BehavioralFeatures) :
    (stepTimeToFirstFeedback ty t f).feedbackCount = f.feedbackCount := by
  simp only [stepTimeToFirstFeedback]
  split_ifs <;> rfl

/-- `stepTimeToFirstFeedback` leaves `manipulationToFeedbackRatio` unchanged. -/
theorem stepTimeToFirstFeedback_ratio (ty : String) (t : ℚ) (f : BehavioralFeatures) :
    (stepTimeToFirstFeedback ty t f).manipulationToFeedbackRatio = f.manipulationToFeedbackRatio := by
  simp only [stepTimeToFirstFeedback]
  split_ifs <;> rfl

/-- `stepTimeToFirstFeedback` leaves `timeToFirstHint` unchanged. -/
theorem stepTimeToFirstFeedback_tFH (ty : String) (t : ℚ) (f : BehavioralFeatures) :
    (stepTimeToFirstFeedback ty t f).timeToFirstHint = f.timeToFirstHint := by
  simp only [stepTimeToFirstFeedback]
  split_ifs <;> rfl

/-- `stepTimeToFirstFeedback` leaves `stateChangeRate` unchanged. -/
theorem stepTimeToFirstFeedback_scr (ty : String) (t : ℚ) (f : BehavioralFeatures) :
    (stepTimeToFirstFeedback ty t f).stateChangeRate = f.stateChangeRate := by
  simp only [stepTimeToFirstFeedback]
  split_ifs <;> rfl

/-- `stepTimeToFirstFeedback` leaves `uniqueStates` unchanged. -/
theorem stepTimeToFirstFeedback_us (ty : String) (t : ℚ) (f : BehavioralFeatures) :
    (stepTimeToFirstFeedback ty t f).uniqueStates = f.uniqueStates := by
  simp only [stepTimeToFirstFeedback]
  split_ifs <;> rfl

/-- `stepAvgActions` leaves `manipulationCount` unchanged. -/
theorem stepAvgActions_manip (evs : List ParsonsEvent) (f : BehavioralFeatures) :
    (stepAvgActions evs f).manipulationCount = f.manipulationCount := by
  simp only [stepAvgActions]
  split_ifs <;> rfl

/-- `stepAvgActions` leaves `feedbackCount` unchanged. -/
theorem stepAvgActions_fb (evs : List ParsonsEvent) (f : BehavioralFeatures) :
    (stepAvgActions evs f).feedbackCount = f.feedbackCount := by
  simp only [stepAvgActions]
  split_ifs <;> rfl

/-- `stepAvgActions` leaves `manipulationToFeedbackRatio` unchanged. -/
theorem stepAvgActions_ratio (evs : List ParsonsEvent) (f : BehavioralFeatures) :
    (stepAvgActions evs f).manipulationToFeedbackRatio = f.manipulationToFeedbackRatio := by
  simp only [stepAvgActions]
  split_ifs <;> rfl

/-- `stepAvgActions` leaves `timeToFirstFeedback` unchanged. -/
theorem stepAvgActions_tFF (evs : List ParsonsEvent) (f : BehavioralFeatures) :
    (stepAvgActions evs f).timeToFirstFeedback = f.timeToFirstFeedback := by
  simp only [stepAvgActions]
  split_ifs <;> rfl

/-- `stepAvgActions` leaves `timeToFirstHint` unchanged. -/
theorem stepAvgActions_tFH (evs : List ParsonsEvent) (f : BehavioralFeatures) :
    (stepAvgActions evs f).timeToFirstHint = f.timeToFirstHint := by
  simp only [stepAvgActions]
  split_ifs <;> rfl

/-- `stepAvgActions` leaves `stateChangeRate` unchanged. -/
theorem stepAvgActions_scr (evs : List ParsonsEvent) (f : BehavioralFeatures) :
    (stepAvgActions evs f).stateChangeRate = f.stateChangeRate := by
  simp only [stepAvgActions]
  split_ifs <;> rfl

/-- `stepAvgActions` leaves `uniqueStates` unchanged. -/
theorem stepAvgActions_us (evs : List ParsonsEvent) (f : BehavioralFeatures) :
    (stepAvgActions evs f).uniqueStates = f.uniqueStates := by
  simp only [stepAvgActions]
  split_ifs <;> rfl

/-- `stepManip` leaves `feedbackCount` unchanged. -/
theorem stepManip_fb (ty : String) (f : BehavioralFeatures) :
    (stepManip ty f).feedbackCount = f.feedbackCount := by
  simp only [stepManip]
  split_ifs <;> rfl

/-- `stepManip` leaves `manipulationToFeedbackRatio` unchanged. -/
theorem stepManip_ratio (ty : String) (f : BehavioralFeatures) :
    (stepManip ty f).manipulationToFeedbackRatio = f.manipulationToFeedbackRatio := by
  simp only [stepManip]
  split_ifs <;> rfl

/-- `stepManip` leaves `timeToFirstFeedback` unchanged. -/
theorem stepManip_tFF (ty : String) (f : BehavioralFeatures) :
    (stepManip ty f).timeToFirstFeedback = f.timeToFirstFeedback := by
  simp only [stepManip]
  split_ifs <;> rfl

/-- `stepManip` leaves `timeToFirstHint` unchanged. -/
theorem stepManip_tFH (ty : String) (f : BehavioralFeatures) :
    (stepManip ty f).timeToFirstHint = f.timeToFirstHint := by
  simp only [stepManip]
  split_ifs <;> rfl

/-- `stepManip` leaves `stateChangeRate` unchanged. -/
theorem stepManip_scr (ty : String) (f : BehavioralFeatures) :
    (stepManip ty f).stateChangeRate = f.stateChangeRate := by
  simp only [stepManip]
  split_ifs <;> rfl

/-- `stepManip` leaves `uniqueStates` unchanged. -/
theorem stepManip_us (ty : String) (f : BehavioralFeatures) :
    (stepManip ty f).uniqueStates = f.uniqueStates := by
  simp only [stepManip]
  split_ifs <;> rfl

/-- `stepFeedbackCount` leaves `manipulationCount` unchanged. -/
theorem stepFeedbackCount_manip (ty : String) (f : BehavioralFeatures) :
    (stepFeedbackCount ty f).manipulationCount = f.manipulationCount := by
  simp only [stepFeedbackCount]
  split_ifs <;> rfl

/-- `stepFeedbackCount` leaves `manipulationToFeedbackRatio` unchanged. -/
theorem stepFeedbackCount_ratio (ty : String) (f : BehavioralFeatures) :
    (stepFeedbackCount ty f).manipulationToFeedbackRatio = f.manipulationToFeedbackRatio := by
  simp only [stepFeedbackCount]
  split_ifs <;> rfl

/-- `stepFeedbackCount` leaves `timeToFirstFeedback` unchanged. -/
theorem stepFeedbackCount_tFF (ty : String) (f : BehavioralFeatures) :
    (stepFeedbackCount ty f).timeToFirstFeedback = f.timeToFirstFeedback := by
  simp only [stepFeedbackCount]
  split_ifs <;> rfl

/-- `stepFeedbackCount` leaves `timeToFirstHint` unchanged. -/
theorem stepFeedbackCount_tFH (ty : String) (f : BehavioralFeatures) :
    (stepFeedbackCount ty f).timeToFirstHint = f.timeToFirstHint := by
  simp only [stepFeedbackCount]
  split_ifs <;> rfl

/-- `stepFeedbackCount` leaves `stateChangeRate` unchanged. -/
theorem stepFeedbackCount_scr (ty : String) (f : BehavioralFeatures) :
    (stepFeedbackCount ty f).stateChangeRate = f.stateChangeRate := by
  simp only [stepFeedbackCount]
  split_ifs <;> rfl

/-- `stepFeedbackCount` leaves `uniqueStates` unchanged. -/
theorem stepFeedbackCount_us (ty : String) (f : BehavioralFeatures) :
    (stepFeedbackCount ty f).uniqueStates = f.uniqueStates := by
  simp only [stepFeedbackCount]
  split_ifs <;> rfl

/-- `stepRatio` leaves `manipulationCount` unchanged. -/
theorem stepRatio_manip (f : BehavioralFeatures) :
    (stepRatio f).manipulationCount = f.manipulationCount := rfl

/-- `stepRatio` leaves `feedbackCount` unchanged. -/
theorem stepRatio_fb (f : BehavioralFeatures) :
    (stepRatio f).feedbackCount = f.feedbackCount := rfl

/-- `stepRatio` leaves `timeToFirstFeedback` unchanged. -/
theorem stepRatio_tFF (f : BehavioralFeatures) :
    (stepRatio f).timeToFirstFeedback = f.timeToFirstFeedback := rfl

/-- `stepRatio` leaves `timeToFirstHint` unchanged. -/
theorem stepRatio_tFH (f : BehavioralFeatures) :
    (stepRatio f).timeToFirstHint = f.timeToFirstHint := rfl

/-- `stepRatio` leaves `stateChangeRate` unchanged. -/
theorem stepRatio_scr (f : BehavioralFeatures) :
    (stepRatio f).stateChangeRate = f.stateChangeRate := rfl

/-- `stepRatio` leaves `uniqueStates` unchanged. -/
theorem stepRatio_us (f : BehavioralFeatures) :
    (stepRatio f).uniqueStates = f.uniqueStates := rfl

/-- `stepStateExploration` leaves `manipulationCount` unchanged. -/
theorem stepStateExploration_manip (o : String) (hist : List (String × Nat)) (n : Nat) (f : BehavioralFeatures) :
    (stepStateExploration o hist n f).manipulationCount = f.manipulationCount := by
  simp only [stepStateExploration]
  split_ifs <;> rfl

/-- `stepStateExploration` leaves `feedbackCount` unchanged. -/
theorem stepStateExploration_fb (o : String) (hist : List (String × Nat)) (n : Nat) (f : BehavioralFeatures) :
    (stepStateExploration o hist n f).feedbackCount = f.feedbackCount := by
  simp only [stepStateExploration]
  split_ifs <;> rfl

/-- `stepStateExploration` leaves `manipulationToFeedbackRatio` unchanged. -/
theorem stepStateExploration_ratio (o : String) (hist : List (String × Nat)) (n : Nat) (f : BehavioralFeatures) :
    (stepStateExploration o hist n f).manipulationToFeedbackRatio = f.manipulationToFeedbackRatio := by
  simp only [stepStateExploration]
  split_ifs <;> rfl

/-- `stepStateExploration` leaves `timeToFirstFeedback` unchanged. -/
theorem stepStateExploration_tFF (o : String) (hist : List (String × Nat)) (n : Nat) (f : BehavioralFeatures) :
    (stepStateExploration o hist n f).timeToFirstFeedback = f.timeToFirstFeedback := by
  simp only [stepStateExploration]
  split_ifs <;> rfl

/-- `stepStateExploration` leaves `timeToFirstHint` unchanged. -/
theorem stepStateExploration_tFH (o : String) (hist : List (String × Nat)) (n : Nat) (f : BehavioralFeatures) :
    (stepStateExploration o hist n f).timeToFirstHint = f.timeToFirstHint := by
  simp only [stepStateExploration]
  split_ifs <;> rfl
/-- A nonzero time-to-first-feedback survives its assignment step: the
assignment is guarded by the field still being 0. -/
theorem stepTimeToFirstFeedback_of_ne (ty : String) (t : ℚ) (f : BehavioralFeatures)
    (h : f.timeToFirstFeedback ≠ 0) :
    (stepTimeToFirstFeedback ty t f).timeToFirstFeedback = f.timeToFirstFeedback := by
  simp only [stepTimeToFirstFeedback]
  rw [if_neg (fun hc => h hc.2)]

/-- A non-feedback event does not change the feedback counter in its step. -/
theorem stepFeedbackCount_of_ne (ty : String) (f : BehavioralFeatures)
    (h : ty ≠ "feedback") :
    (stepFeedbackCount ty f).feedbackCount = f.feedbackCount := by
  simp only [stepFeedbackCount]
  rw [if_neg h]

/-- What the ratio step sets: `manipulationCount / max 1 feedbackCount`. -/
theorem stepRatio_spec (f : BehavioralFeatures) :
    (stepRatio f).manipulationToFeedbackRatio =
      f.manipulationCount / max 1 f.feedbackCount := rfl

/-- On a truthy output hash the state-exploration step recomputes the
state-change rate as updated-histogram size over stored-event count. -/
theorem stepStateExploration_scr_pos (o : String) (hist : List (String × Nat))
    (n : Nat) (f : BehavioralFeatures) (h : o ≠ "") :
    (stepStateExploration o hist n f).stateChangeRate =
      ((hist.length : Nat) : ℚ) / (n : ℚ) := by
  simp only [stepStateExploration]
  rw [if_neg h]

/-- On a truthy output hash the state-exploration step sets the distinct-state
counter to the updated histogram size. -/
theorem stepStateExploration_us_pos (o : String) (hist : List (String × Nat))
    (n : Nat) (f : BehavioralFeatures) (h : o ≠ "") :
    (stepStateExploration o hist n f).uniqueStates = ((hist.length : Nat) : ℚ) := by
  simp only [stepStateExploration]
  rw [if_neg h]

/-- On a falsy output hash the state-exploration step is skipped entirely. -/
theorem stepStateExploration_empty (hist : List (String × Nat)) (n : Nat)
    (f : BehavioralFeatures) :
    stepStateExploration "" hist n f = f := by
  simp [stepStateExploration]

/-- Normalization inside `logEvent` does not change the event type. -/
theorem normEvent_type (now : ℚ) (ev : ParsonsEvent) :
    (if ev.time = 0 then { ev with time := now } else ev).type = ev.type := by
  split <;> rfl

/-- Normalization inside `logEvent` does not change the output hash. -/
theorem normEvent_output (now : ℚ) (ev : ParsonsEvent) :
    (if ev.time = 0 then { ev with time := now } else ev).output = ev.output := by
  split <;> rfl

/-- The ratio invariant of `updateFeatures`: after the update, the stored
ratio equals `manipulationCount / max 1 feedbackCount` at the new counts. -/
theorem updateFeatures_ratio (e : ParsonsEvent) (s : LoggerState) :
    (updateFeatures e s).features.manipulationToFeedbackRatio =
      (updateFeatures e s).features.manipulationCount /
        max 1 (updateFeatures e s).features.feedbackCount := by
  simp only [updateFeatures]
  rw [updateHintFeatures_ratio, updateHintFeatures_manip, updateHintFeatures_fb]
  by_cases hfb : e.type = "feedback"
  · rw [if_pos hfb, updateSuccessPatterns_ratio, updateSuccessPatterns_manip,
      updateSuccessPatterns_fb, stepStateExploration_ratio,
      stepStateExploration_manip, stepStateExploration_fb, stepRatio_spec,
      stepRatio_manip, stepRatio_fb]
  · rw [if_neg hfb, stepStateExploration_ratio, stepStateExploration_manip,
      stepStateExploration_fb, stepRatio_spec, stepRatio_manip, stepRatio_fb]

/-- A non-feedback event leaves the feedback counter unchanged. -/
theorem updateFeatures_fb_of_ne (e : ParsonsEvent) (s : LoggerState)
    (h : e.type ≠ "feedback") :
    (updateFeatures e s).features.feedbackCount = s.features.feedbackCount := by
  simp only [updateFeatures]
  rw [updateHintFeatures_fb, if_neg h, stepStateExploration_fb, stepRatio_fb,
    stepFeedbackCount_of_ne _ _ h, stepManip_fb, stepAvgActions_fb,
    stepTimeToFirstFeedback_fb, stepTotalTime_fb]

/-- A nonzero time-to-first-feedback survives any feature update. -/
theorem updateFeatures_tFF (e : ParsonsEvent) (s : LoggerState)
    (h : s.features.timeToFirstFeedback ≠ 0) :
    (updateFeatures e s).features.timeToFirstFeedback =
      s.features.timeToFirstFeedback := by
  simp only [updateFeatures]
  rw [updateHintFeatures_tFF]
  by_cases hfb : e.type = "feedback"
  · rw [if_pos hfb, updateSuccessPatterns_tFF, stepStateExploration_tFF,
      stepRatio_tFF, stepFeedbackCount_tFF, stepManip_tFF, stepAvgActions_tFF,
      stepTimeToFirstFeedback_of_ne, stepTotalTime_tFF]
    rw [stepTotalTime_tFF]
    exact h
  · rw [if_neg hfb, stepStateExploration_tFF,
      stepRatio_tFF, stepFeedbackCount_tFF, stepManip_tFF, stepAvgActions_tFF,
      stepTimeToFirstFeedback_of_ne, stepTotalTime_tFF]
    rw [stepTotalTime_tFF]
    exact h

/-- A nonzero time-to-first-hint survives any feature update. -/
theorem updateFeatures_tFH (e : ParsonsEvent) (s : LoggerState)
    (h : s.features.timeToFirstHint ≠ 0) :
    (updateFeatures e s).features.timeToFirstHint = s.features.timeToFirstHint := by
  simp only [updateFeatures]
  rw [updateHintFeatures_tFH]
  · by_cases hfb : e.type = "feedback"
    · rw [if_pos hfb, updateSuccessPatterns_tFH, stepStateExploration_tFH,
        stepRatio_tFH, stepFeedbackCount_tFH, stepManip_tFH, stepAvgActions_tFH,
        stepTimeToFirstFeedback_tFH, stepTotalTime_tFH]
    · rw [if_neg hfb, stepStateExploration_tFH,
        stepRatio_tFH, stepFeedbackCount_tFH, stepManip_tFH, stepAvgActions_tFH,
        stepTimeToFirstFeedback_tFH, stepTotalTime_tFH]
  · by_cases hfb : e.type = "feedback"
    · rw [if_pos hfb, updateSuccessPatterns_tFH, stepStateExploration_tFH,
        stepRatio_tFH, stepFeedbackCount_tFH, stepManip_tFH, stepAvgActions_tFH,
        stepTimeToFirstFeedback_tFH, stepTotalTime_tFH]
      exact h
    · rw [if_neg hfb, stepStateExploration_tFH,
        stepRatio_tFH, stepFeedbackCount_tFH, stepManip_tFH, stepAvgActions_tFH,
        stepTimeToFirstFeedback_tFH, stepTotalTime_tFH]
      exact h

/-- On a truthy output hash, the updated state-change rate is the updated
histogram size over the stored-event count. -/
theorem updateFeatures_scr_pos (e : ParsonsEvent) (s : LoggerState)
    (h : e.output ≠ "") :
    (updateFeatures e s).features.stateChangeRate =
      ((mapBump e.output s.stateHistory).length : ℚ) / (s.events.length : ℚ) := by
  simp only [updateFeatures]
  rw [updateHintFeatures_scr, if_neg h]
  by_cases hfb : e.type = "feedback"
  · rw [if_pos hfb, updateSuccessPatterns_scr, stepStateExploration_scr_pos _ _ _ _ h]
  · rw [if_neg hfb, stepStateExploration_scr_pos _ _ _ _ h]

/-- On a truthy output hash, the updated distinct-state counter is the updated
histogram size. -/
theorem updateFeatures_us_pos (e : ParsonsEvent) (s : LoggerState)
    (h : e.output ≠ "") :
    (updateFeatures e s).features.uniqueStates =
      ((mapBump e.output s.stateHistory).length : ℚ) := by
  simp only [updateFeatures]
  rw [updateHintFeatures_us, if_neg h]
  by_cases hfb : e.type = "feedback"
  · rw [if_pos hfb, updateSuccessPatterns_us, stepStateExploration_us_pos _ _ _ _ h]
  · rw [if_neg hfb, stepStateExploration_us_pos _ _ _ _ h]

/-- On a falsy output hash, the state-change rate is left at its old value. -/
theorem updateFeatures_scr_empty (e : ParsonsEvent) (s : LoggerState)
    (h : e.output = "") :
    (updateFeatures e s).features.stateChangeRate = s.features.stateChangeRate := by
  simp only [updateFeatures]
  rw [updateHintFeatures_scr]
  by_cases hfb : e.type = "feedback"
  · rw [if_pos hfb, updateSuccessPatterns_scr, h, stepStateExploration_empty,
      stepRatio_scr, stepFeedbackCount_scr, stepManip_scr, stepAvgActions_scr,
      stepTimeToFirstFeedback_scr, stepTotalTime_scr]
  · rw [if_neg hfb, h, stepStateExploration_empty,
      stepRatio_scr, stepFeedbackCount_scr, stepManip_scr, stepAvgActions_scr,
      stepTimeToFirstFeedback_scr, stepTotalTime_scr]

/-- The ratio invariant holds after every `logEvent`. -/
theorem logEvent_ratio (now : ℚ) (ev : ParsonsEvent) (s : LoggerState) :
    (logEvent now ev s).features.manipulationToFeedbackRatio =
      (logEvent now ev s).features.manipulationCount /
        max 1 (logEvent now ev s).features.feedbackCount := by
  simp only [logEvent]
  exact updateFeatures_ratio _ _

/-- Ingesting a non-feedback event leaves the feedback counter unchanged. -/
theorem logEvent_fb_of_ne (now : ℚ) (ev : ParsonsEvent) (s : LoggerState)
    (h : ev.type ≠ "feedback") :
    (logEvent now ev s).features.feedbackCount = s.features.feedbackCount := by
  simp only [logEvent]
  exact updateFeatures_fb_of_ne _ _ (by rw [normEvent_type]; exact h)

/-- A nonzero time-to-first-feedback survives any ingest. -/
theorem logEvent_tFF (now : ℚ) (ev : ParsonsEvent) (s : LoggerState)
    (h : s.features.timeToFirstFeedback ≠ 0) :
    (logEvent now ev s).features.timeToFirstFeedback =
      s.features.timeToFirstFeedback := by
  simp only [logEvent]
  exact updateFeatures_tFF _ _ h

/-- A nonzero time-to-first-hint survives any ingest. -/
theorem logEvent_tFH (now : ℚ) (ev : ParsonsEvent) (s : LoggerState)
    (h : s.features.timeToFirstHint ≠ 0) :
    (logEvent now ev s).features.timeToFirstHint = s.features.timeToFirstHint := by
  simp only [logEvent]
  exact updateFeatures_tFH _ _ h

/-- Ingesting an event with a truthy output hash recomputes the state-change
rate as updated-histogram size over the new total event count. -/
theorem logEvent_scr_pos (now : ℚ) (ev : ParsonsEvent) (s : LoggerState)
    (h : ev.output ≠ "") :
    (logEvent now ev s).features.stateChangeRate =
      ((mapBump ev.output s.stateHistory).length : ℚ) /
        ((s.events.length + 1 : ℕ) : ℚ) := by
  simp only [logEvent]
  rw [updateFeatures_scr_pos _ _ (by rw [normEvent_output]; exact h)]
  simp [normEvent_output, List.length_append]

/-- Ingesting an event with a truthy output hash sets the distinct-state
counter to the updated histogram size. -/
theorem logEvent_us_pos (now : ℚ) (ev : ParsonsEvent) (s : LoggerState)
    (h : ev.output ≠ "") :
    (logEvent now ev s).features.uniqueStates =
      ((mapBump ev.output s.stateHistory).length : ℚ) := by
  simp only [logEvent]
  rw [updateFeatures_us_pos _ _ (by rw [normEvent_output]; exact h)]
  simp [normEvent_output]

/-- Ingesting an event with a falsy output hash leaves the state-change rate
at its previous value. -/
theorem logEvent_scr_empty (now : ℚ) (ev : ParsonsEvent) (s : LoggerState)
    (h : ev.output = "") :
    (logEvent now ev s).features.stateChangeRate =
      s.features.stateChangeRate := by
  simp only [logEvent]
  exact updateFeatures_scr_empty _ _ (by rw [normEvent_output]; exact h)

/-- A non-feedback event type leaves time-to-first-feedback unchanged in its
assignment step. -/
theorem stepTimeToFirstFeedback_of_type (ty : String) (t : ℚ)
    (f : BehavioralFeatures) (h : ty ≠ "feedback") :
    (stepTimeToFirstFeedback ty t f).timeToFirstFeedback = f.timeToFirstFeedback := by
  simp only [stepTimeToFirstFeedback]
  rw [if_neg (fun hc => h hc.1)]

/-- A non-feedback event leaves time-to-first-feedback unchanged. -/
theorem updateFeatures_tFF_of_type (e : ParsonsEvent) (s : LoggerState)
    (h : e.type ≠ "feedback") :
    (updateFeatures e s).features.timeToFirstFeedback =
      s.features.timeToFirstFeedback := by
  simp only [updateFeatures]
  rw [updateHintFeatures_tFF, if_neg h, stepStateExploration_tFF, stepRatio_tFF,
    stepFeedbackCount_tFF, stepManip_tFF, stepAvgActions_tFF,
    stepTimeToFirstFeedback_of_type _ _ _ h, stepTotalTime_tFF]

/-- Ingesting a non-feedback event leaves time-to-first-feedback unchanged. -/
theorem logEvent_tFF_of_type (now : ℚ) (ev : ParsonsEvent) (s : LoggerState)
    (h : ev.type ≠ "feedback") :
    (logEvent now ev s).features.timeToFirstFeedback =
      s.features.timeToFirstFeedback := by
  simp only [logEvent]
  exact updateFeatures_tFF_of_type _ _ (by rw [normEvent_type]; exact h)

/-- On a feedback event with the field still 0, the update records the elapsed
time since the recomputed session start. -/
theorem updateFeatures_tFF_set (e : ParsonsEvent) (s : LoggerState)
    (ht : e.type = "feedback") (h0 : s.features.timeToFirstFeedback = 0) :
    (updateFeatures e s).features.timeToFirstFeedback =
      e.time - getActualStartTime s := by
  simp only [updateFeatures]
  rw [updateHintFeatures_tFF, if_pos ht, updateSuccessPatterns_tFF,
    stepStateExploration_tFF, stepRatio_tFF, stepFeedbackCount_tFF, stepManip_tFF,
    stepAvgActions_tFF]
  simp only [stepTimeToFirstFeedback]
  rw [if_pos ⟨ht, by rw [stepTotalTime_tFF]; exact h0⟩]

/-- Ingesting a feedback event while the field is still 0 records the event
time minus the recomputed start time over the extended history. -/
theorem logEvent_tFF_set (now : ℚ) (ev : ParsonsEvent) (s : LoggerState)
    (hnz : ev.time ≠ 0) (ht : ev.type = "feedback")
    (h0 : s.features.timeToFirstFeedback = 0) :
    (logEvent now ev s).features.timeToFirstFeedback =
      ev.time - getActualStartTime { s with events := s.events ++ [ev] } := by
  simp only [logEvent, if_neg hnz]
  exact updateFeatures_tFF_set ev _ ht h0

/-- On a falsy output hash, the distinct-state counter is left unchanged. -/
theorem updateFeatures_us_empty (e : ParsonsEvent) (s : LoggerState)
    (h : e.output = "") :
    (updateFeatures e s).features.uniqueStates = s.features.uniqueStates := by
  simp only [updateFeatures]
  rw [updateHintFeatures_us]
  by_cases hfb : e.type = "feedback"
  · rw [if_pos hfb, updateSuccessPatterns_us, h, stepStateExploration_empty,
      stepRatio_us, stepFeedbackCount_us, stepManip_us, stepAvgActions_us,
      stepTimeToFirstFeedback_us, stepTotalTime_us]
  · rw [if_neg hfb, h, stepStateExploration_empty,
      stepRatio_us, stepFeedbackCount_us, stepManip_us, stepAvgActions_us,
      stepTimeToFirstFeedback_us, stepTotalTime_us]

/-- Ingesting an event with a falsy output hash leaves the distinct-state
counter unchanged. -/
theorem logEvent_us_empty (now : ℚ) (ev : ParsonsEvent) (s : LoggerState)
    (h : ev.output = "") :
    (logEvent now ev s).features.uniqueStates = s.features.uniqueStates := by
  simp only [logEvent]
  exact updateFeatures_us_empty _ _ (by rw [normEvent_output]; exact h)

/-- When the history already holds an init event, the adapter init channel is
a no-op. -/
theorem logInitialState_skip (now : ℚ) (out : String) (inp : Option String)
    (md : Option EventMeta) (s : LoggerState)
    (h : s.events.any (fun e => e.type == "init") = true) :
    logInitialState now out inp md s = s := by
  simp [logInitialState, h]

/-- When the history holds no init event, the adapter init channel appends
exactly one init event. -/
theorem logInitialState_emit (now : ℚ) (out : String) (inp : Option String)
    (md : Option EventMeta) (s : LoggerState)
    (h : s.events.any (fun e => e.type == "init") = false) :
    (logInitialState now out inp md s).events =
      s.events ++ [{ time := now, type := "init", output := out, input := inp, metadata := md }] := by
  simp [logInitialState, h, logEvent_events]

/-- Containment of a pattern transfers along an infix of that pattern. -/
theorem strContains_mono (s p q : String) (hpq : p.toList <:+: q.toList)
    (h : strContains s q = true) : strContains s p = true :=
  decide_eq_true (hpq.trans (of_decide_eq_true h))

/-- Folding a feedback-free event list over the engine keeps the feedback
counter at 0 and the ratio equal to the manipulation counter. -/
theorem ingestList_no_feedback (l : List ParsonsEvent) :
    ∀ s : LoggerState, (∀ e ∈ l, e.type ≠ "feedback") →
      s.features.feedbackCount = 0 →
      s.features.manipulationToFeedbackRatio = s.features.manipulationCount →
      (ingestList l s).features.feedbackCount = 0 ∧
      (ingestList l s).features.manipulationToFeedbackRatio =
        (ingestList l s).features.manipulationCount := by
  induction l with
  | nil => exact fun s _ h0 hr => ⟨h0, hr⟩
  | cons e rest ih =>
    intro s hl h0 hr
    have hne : e.type ≠ "feedback" := hl e (List.mem_cons_self _ _)
    have hfb : (logEvent e.time e s).features.feedbackCount = 0 := by
      rw [logEvent_fb_of_ne _ _ _ hne]
      exact h0
    have hra : (logEvent e.time e s).features.manipulationToFeedbackRatio =
        (logEvent e.time e s).features.manipulationCount := by
      rw [logEvent_ratio, hfb]
      simp
    exact ih (logEvent e.time e s)
      (fun x hx => hl x (List.mem_cons_of_mem _ hx)) hfb hra

/-!
Part 5: the claims.
Each claim of the specification is settled by one theorem below; corrected
claims additionally carry a closed counterexample theorem, and theorems with
hypotheses carry a closed witness.
-/

/-- C1: the grader concrete cases. With canonical text `"a\nb #distractor\nc"`
and candidate `["a", "c"]` with indentation disabled the verdict is correct;
with candidate `["c", "a"]` the verdict is incorrect with a content diagnostic
at line 1; with canonical `"if x:\n    y()"`, indentation enabled, and
candidate `["if x:", "y()"]` the verdict is incorrect with an indentation
diagnostic at line 2, expected depth 1, actual depth 0. -/
theorem C1_grader_concrete_cases :
    validateSolutionLocally ⟨"a\nb #distractor\nc", ⟨false⟩⟩ ["a", "c"] =
      { isCorrect := true, details := Diagnostic.correct } ∧
    validateSolutionLocally ⟨"a\nb #distractor\nc", ⟨false⟩⟩ ["c", "a"] =
      { isCorrect := false, details := Diagnostic.contentMismatch 1 } ∧
    validateSolutionLocally ⟨"if x:\n    y()", ⟨true⟩⟩ ["if x:", "y()"] =
      { isCorrect := false, details := Diagnostic.indentMismatch 2 1 0 } := by
  refine ⟨?_, ?_, ?_⟩ <;> decide

/-- C2 counterexample: with indentation enabled, canonical
`"if x:\n    y()\nz"` and candidate `["    if x:", "w()", "z"]`, position 1
has only an indentation mismatch and position 2 has a content mismatch, yet
the grader reports the indentation diagnostic at line 1 — not the content
diagnostic at line 2 that the claim predicts. -/
theorem C2_counterexample_indent_reported_first :
    validateSolutionLocally ⟨"if x:\n    y()\nz", ⟨true⟩⟩ ["    if x:", "w()", "z"] =
      { isCorrect := false, details := Diagnostic.indentMismatch 1 0 1 } ∧
    (validateSolutionLocally ⟨"if x:\n    y()\nz", ⟨true⟩⟩
        ["    if x:", "w()", "z"]).details ≠ Diagnostic.contentMismatch 2 := by
  refine ⟨?_, ?_⟩ <;> decide

/-- C2 (amended): the grader checks the line count first, then walks the
positions in order, and at each position checks content first and then, when
indentation is enabled, the indentation depth, returning the first failing
check. In particular a content mismatch at the head position is reported
regardless of the tails, and with indentation enabled an indentation mismatch
at the head position is reported regardless of the tails — so an earlier
indentation mismatch wins over a later content mismatch, and within one
position content wins over indentation. -/
theorem C2_check_order_amended :
    (∀ (settings : ParsonsSettings) (sol : List String),
      sol.length ≠ (extractCorrectLines settings.initial).length →
      validateSolutionLocally settings sol =
        { isCorrect := false,
          details := Diagnostic.lengthMismatch sol.length
            (extractCorrectLines settings.initial).length }) ∧
    (∀ (ci : Bool) (u c : String) (us cs : List String) (n : Nat),
      jsTrim u ≠ jsTrim c →
      compareLines ci (u :: us) (c :: cs) n =
        { isCorrect := false, details := Diagnostic.contentMismatch n }) ∧
    (∀ (u c : String) (us cs : List String) (n : Nat),
      jsTrim u = jsTrim c → getIndentLevel u ≠ getIndentLevel c →
      compareLines true (u :: us) (c :: cs) n =
        { isCorrect := false,
          details := Diagnostic.indentMismatch n (getIndentLevel c)
            (getIndentLevel u) }) := by
  refine ⟨?_, ?_, ?_⟩
  · intro settings sol h
    simp only [validateSolutionLocally]
    rw [if_pos h]
  · intro ci u c us cs n h
    simp only [compareLines]
    rw [if_pos h]
  · intro u c us cs n h1 h2
    simp only [compareLines]
    rw [if_neg (not_not_intro h1), if_pos ⟨trivial, h2⟩]

/-- C2 witness: the three branches of the amended check order at concrete
inputs. -/
theorem C2_check_order_witness :
    validateSolutionLocally ⟨"a", ⟨false⟩⟩ ["a", "b"] =
      { isCorrect := false, details := Diagnostic.lengthMismatch 2 1 } ∧
    compareLines false ["x"] ["y"] 1 =
      { isCorrect := false, details := Diagnostic.contentMismatch 1 } ∧
    compareLines true ["    a"] ["a"] 2 =
      { isCorrect := false, details := Diagnostic.indentMismatch 2 0 1 } :=
  ⟨C2_check_order_amended.1 ⟨"a", ⟨false⟩⟩ ["a", "b"] (by decide),
    C2_check_order_amended.2.1 false "x" "y" [] [] 1 (by decide),
    C2_check_order_amended.2.2 "    a" "a" [] [] 2 (by decide) (by decide)⟩

/-- C3 counterexample: ingesting two init events into a fresh engine through
`logEvent` stores both of them — the engine itself has no init guard. -/
theorem C3_counterexample_engine_stores_two_inits :
    countType "init"
        ((logEvent 100 (initEventAt 100)
          (logEvent 100 (initEventAt 100) freshLogger)).events) = 2 ∧
    (2 : Nat) ≠ 1 := by
  refine ⟨?_, ?_⟩ <;> decide

/-- C3 (amended): the engine stores every ingested event, duplicate inits
included; the at-most-one-init guarantee lives in the adapter channel
`logInitialState`, which checks the engine history for an existing init event
before emitting: from a history with no init event, two adapter init calls
leave exactly one init event. -/
theorem C3_adapter_init_guard_amended (s : LoggerState) (n1 n2 : ℚ)
    (o1 o2 : String) (i1 i2 : Option String) (m1 m2 : Option EventMeta)
    (h0 : countType "init" s.events = 0) :
    countType "init"
      ((logInitialState n2 o2 i2 m2 (logInitialState n1 o1 i1 m1 s)).events) = 1 := by
  have hfil : List.filter (fun e => e.type == "init") s.events = [] :=
    List.length_eq_zero.mp h0
  have hany : s.events.any (fun e => e.type == "init") = false := by
    rw [List.any_eq_false]
    intro e he hbeq
    have hmem : e ∈ List.filter (fun e => e.type == "init") s.events :=
      List.mem_filter.mpr ⟨he, hbeq⟩
    rw [hfil] at hmem
    exact absurd hmem (List.not_mem_nil e)
  have h1 : (logInitialState n1 o1 i1 m1 s).events =
      s.events ++ [{ time := n1, type := "init", output := o1, input := i1, metadata := m1 }] :=
    logInitialState_emit _ _ _ _ _ hany
  have h2 : (logInitialState n1 o1 i1 m1 s).events.any
      (fun e => e.type == "init") = true := by
    rw [h1, List.any_append]
    simp
  rw [logInitialState_skip _ _ _ _ _ h2, h1, countType, List.filter_append, hfil]
  simp

/-- C3 witness: two adapter init calls on a fresh engine leave exactly one
init event. -/
theorem C3_adapter_init_guard_witness :
    countType "init" freshLogger.events = 0 ∧
    countType "init"
      ((logInitialState 200 "h" none none
        (logInitialState 100 "h" none none freshLogger)).events) = 1 :=
  ⟨by decide,
    C3_adapter_init_guard_amended freshLogger 100 200 "h" "h" none none none none
      (by decide)⟩

/-- C4 counterexample: a run in which the log-append channel captured a
feedback event at time 1000 followed by three move events, and the wrapped
feedback query fires at time 1500 — the same check, 500 ms apart — yet two
feedback events end up stored, because the dedup guard only inspects the last
three stored events. -/
theorem C4_counterexample_duplicate_feedback :
    countType "feedback"
        ((getFeedbackCapture 1500 false [] "h3" none c4PreState).events) = 2 ∧
    (2 : Nat) ≠ 1 := by
  refine ⟨?_, ?_⟩ <;> decide

/-- C4 (amended): the feedback-query channel skips emitting exactly when one
of the LAST THREE stored events is a feedback event stamped within one second
of the query time; otherwise it stores one more feedback event. When the
log-append feedback event is still among the last three stored events this
yields exactly one feedback event for the check; when three or more other
events intervene, a duplicate is stored. -/
theorem C4_dedup_last_three_amended (now : ℚ) (fbSuccess : Bool)
    (fbErrors : List String) (widgetOut : String) (widgetInp : Option String)
    (s : LoggerState) :
    ((s.events.drop (s.events.length - 3)).any
        (fun e => e.type == "feedback" && decide (|e.time - now| < 1000)) = true →
      getFeedbackCapture now fbSuccess fbErrors widgetOut widgetInp s = s) ∧
    ((s.events.drop (s.events.length - 3)).any
        (fun e => e.type == "feedback" && decide (|e.time - now| < 1000)) = false →
      countType "feedback"
          ((getFeedbackCapture now fbSuccess fbErrors widgetOut widgetInp s).events) =
        countType "feedback" s.events + 1) := by
  constructor
  · intro h
    simp [getFeedbackCapture, h]
  · intro h
    simp only [getFeedbackCapture, h, Bool.false_eq_true, if_false, logEvent_events]
    rcases eq_or_ne now 0 with h0 | h0 <;>
      simp [h0, countType, List.filter_append]

/-- C4 witness: a query 200 ms after a stored feedback event is skipped; a
query over an empty history stores exactly one feedback event. -/
theorem C4_dedup_last_three_witness :
    getFeedbackCapture 1200 false [] "h" none c4SkipState = c4SkipState ∧
    countType "feedback"
        ((getFeedbackCapture 800 false [] "h" none freshLogger).events) =
      countType "feedback" freshLogger.events + 1 := by
  constructor
  · refine (C4_dedup_last_three_amended 1200 false [] "h" none c4SkipState).1 ?_
    have habs : |(1000 : ℚ) - 1200| < 1000 := by norm_num
    simp [c4SkipState, logEvent_events, feedbackEventAt, freshLogger,
      mkEventLogger, habs]
  · refine (C4_dedup_last_three_amended 800 false [] "h" none freshLogger).2 ?_
    simp [freshLogger, mkEventLogger]

/-- C5: snapshot isolation. A snapshot taken before a further ingest is not
affected by it: the engine only ever appends to the event list, so every
event position the earlier snapshot shares with the engine still holds the
same event value afterwards, and the identity fields never change. The
features record and state histogram of a snapshot are flat value copies. -/
theorem C5_snapshot_isolation (now : ℚ) (ev : ParsonsEvent) (s : LoggerState) :
    ((getSessionSnapshot (logEvent now ev s)).events).take
        ((getSessionSnapshot s).events).length = (getSessionSnapshot s).events ∧
    (logEvent now ev s).sessionId = s.sessionId ∧
    (logEvent now ev s).studentId = s.studentId ∧
    (logEvent now ev s).problemId = s.problemId ∧
    (logEvent now ev s).schoolId = s.schoolId ∧
    (getSessionSnapshot s).features = s.features ∧
    (getSessionSnapshot s).stateHistory = s.stateHistory := by
  refine ⟨?_, rfl, rfl, rfl, rfl, rfl, rfl⟩
  simp only [getSessionSnapshot, logEvent_events]
  exact List.take_left _ _

/-- C6 counterexample: the one-shot guard is the field still being 0 and no
clamping happens. Ingesting init at time 1000 and then a feedback event with
the pathological timestamp 500 stores timeToFirstFeedback = -500 (negative,
not clamped to zero); and when the first feedback yields elapsed time 0, a
later feedback event overwrites the recorded value (0 becomes 100). -/
theorem C6_counterexample_negative_and_overwrite :
    (logEvent 500 (feedbackEventAt 500 "h")
        (logEvent 1000 (initEventAt 1000) freshLogger)).features.timeToFirstFeedback
      = -500 ∧
    ((-500 : ℚ) ≠ 0) ∧
    (logEvent 100 (feedbackEventAt 100 "h")
        freshLogger).features.timeToFirstFeedback = 0 ∧
    (logEvent 200 (feedbackEventAt 200 "h")
        (logEvent 100 (feedbackEventAt 100 "h")
          freshLogger)).features.timeToFirstFeedback = 100 := by
  have ev1 : (logEvent 1000 (initEventAt 1000) freshLogger).events =
      [initEventAt 1000] := by
    rw [logEvent_events]
    norm_num [initEventAt, freshLogger, mkEventLogger]
  have h1 : (logEvent 1000 (initEventAt 1000)
      freshLogger).features.timeToFirstFeedback = 0 := by
    rw [logEvent_tFF_of_type _ _ _ (by decide)]
    norm_num [freshLogger, mkEventLogger, emptyFeatures]
  have hA : (logEvent 500 (feedbackEventAt 500 "h")
      (logEvent 1000 (initEventAt 1000) freshLogger)).features.timeToFirstFeedback
      = -500 := by
    rw [logEvent_tFF_set _ _ _ (by decide) (by decide) h1, ev1]
    have hfi : ("feedback" : String) ≠ "init" := by decide
    norm_num [getActualStartTime, listMinQ, initEventAt, feedbackEventAt, hfi,
      List.filter_cons, List.filter_nil, List.map_cons, List.map_nil,
      List.foldl_cons, List.foldl_nil]
  have evB : (logEvent 100 (feedbackEventAt 100 "h") freshLogger).events =
      [feedbackEventAt 100 "h"] := by
    rw [logEvent_events]
    norm_num [feedbackEventAt, freshLogger, mkEventLogger]
  have hB1 : (logEvent 100 (feedbackEventAt 100 "h")
      freshLogger).features.timeToFirstFeedback = 0 := by
    rw [logEvent_tFF_set _ _ _ (by decide) (by decide)
      (by norm_num [freshLogger, mkEventLogger, emptyFeatures])]
    have hfi : ("feedback" : String) ≠ "init" := by decide
    norm_num [getActualStartTime, listMinQ, feedbackEventAt, freshLogger,
      mkEventLogger, hfi, List.filter_cons, List.filter_nil, List.map_cons,
      List.map_nil, List.foldl_cons, List.foldl_nil]
  have hB2 : (logEvent 200 (feedbackEventAt 200 "h")
      (logEvent 100 (feedbackEventAt 100 "h")
        freshLogger)).features.timeToFirstFeedback = 100 := by
    rw [logEvent_tFF_set _ _ _ (by decide) (by decide) hB1, evB]
    have hfi : ("feedback" : String) ≠ "init" := by decide
    norm_num [getActualStartTime, listMinQ, feedbackEventAt, hfi,
      List.filter_cons, List.filter_nil, List.map_cons, List.map_nil,
      List.foldl_cons, List.foldl_nil]
  exact ⟨hA, by norm_num, hB1, hB2⟩

/-- C6 (amended): each of timeToFirstFeedback and timeToFirstHint is written
only while its value is still 0 — on the first event of the relevant type
whose derived duration is nonzero — and once nonzero is never changed by any
later ingest; a negative derived duration is stored as-is with a console
warning, not clamped, and no ingest ever fails. -/
theorem C6_write_once_amended (s : LoggerState) (ev : ParsonsEvent) (now : ℚ)
    (hf : s.features.timeToFirstFeedback ≠ 0)
    (hh : s.features.timeToFirstHint ≠ 0) :
    (logEvent now ev s).features.timeToFirstFeedback =
      s.features.timeToFirstFeedback ∧
    (logEvent now ev s).features.timeToFirstHint = s.features.timeToFirstHint :=
  ⟨logEvent_tFF now ev s hf, logEvent_tFH now ev s hh⟩

/-- C6 witness: a state with both one-shot fields already nonzero keeps them
across a further feedback ingest. -/
theorem C6_write_once_witness :
    c6State.features.timeToFirstFeedback ≠ 0 ∧
    c6State.features.timeToFirstHint ≠ 0 ∧
    ((logEvent 9 (feedbackEventAt 9 "h") c6State).features.timeToFirstFeedback =
        c6State.features.timeToFirstFeedback ∧
      (logEvent 9 (feedbackEventAt 9 "h") c6State).features.timeToFirstHint =
        c6State.features.timeToFirstHint) :=
  ⟨by decide, by decide,
    C6_write_once_amended c6State (feedbackEventAt 9 "h") 9 (by decide) (by decide)⟩

/-- C7 counterexample: the action string "remove" is classified moveOutput,
not removeOutput, because the substring checks run in order and "remove"
contains "move". -/
theorem C7_counterexample_remove_maps_to_move :
    mapActionToType "remove" = "moveOutput" ∧
    determineEventType none (some "remove") = "moveOutput" ∧
    mapActionToType "remove" ≠ "removeOutput" := by
  refine ⟨?_, ?_, ?_⟩ <;> decide

/-- C7 (amended): the fallback classification checks the lowercased action
for the substrings move, add, remove or delete, feedback or check, in that
order, defaulting to unknown; since "remove" contains "move" as a substring,
every action containing "remove" is classified moveOutput (both directly and
through an entry lacking a literal type field), and the removeOutput branch is
reachable only through "delete". -/
theorem C7_keyword_order_amended (a : String)
    (h : strContains (jsToLower a) "remove" = true) :
    mapActionToType a = "moveOutput" ∧
    determineEventType none (some a) = "moveOutput" := by
  have hmove : strContains (jsToLower a) "move" = true :=
    strContains_mono _ _ _ (by decide) h
  have hne : a ≠ "" := fun h0 => absurd (h0 ▸ h) (by decide)
  have h1 : mapActionToType a = "moveOutput" := by
    simp [mapActionToType, hmove]
  exact ⟨h1, by simp [determineEventType, strFalsy, hne, h1]⟩

/-- C7 witness: the action "removeBlock" contains "remove" and is classified
moveOutput. -/
theorem C7_keyword_order_witness :
    strContains (jsToLower "removeBlock") "remove" = true ∧
    (mapActionToType "removeBlock" = "moveOutput" ∧
      determineEventType none (some "removeBlock") = "moveOutput") :=
  ⟨by decide, C7_keyword_order_amended "removeBlock" (by decide)⟩

/-- C8 counterexample: after a move carrying hash "h1" and a second move
carrying no output hash, the stored stateChangeRate is still 1, while
distinct states over total events is 1/2 — the equality claimed after every
event fails after a no-hash event. -/
theorem C8_counterexample_stale_rate :
    c8State.features.stateChangeRate = 1 ∧
    c8State.features.uniqueStates / ((c8State.events.length : Nat) : ℚ) = 1 / 2 ∧
    ((1 : ℚ) ≠ 1 / 2) := by
  have hs1 : (logEvent 100 (moveEventAt 100 "h1")
      freshLogger).features.stateChangeRate = 1 := by
    rw [logEvent_scr_pos _ _ _ (by decide)]
    norm_num [mapBump, freshLogger, mkEventLogger, moveEventAt]
  have hu1 : (logEvent 100 (moveEventAt 100 "h1")
      freshLogger).features.uniqueStates = 1 := by
    rw [logEvent_us_pos _ _ _ (by decide)]
    norm_num [mapBump, freshLogger, mkEventLogger, moveEventAt]
  have hscr : c8State.features.stateChangeRate = 1 := by
    simp only [c8State]
    rw [logEvent_scr_empty _ _ _ rfl]
    exact hs1
  have hus : c8State.features.uniqueStates = 1 := by
    simp only [c8State]
    rw [logEvent_us_empty _ _ _ rfl]
    exact hu1
  have hlen : c8State.events.length = 2 := by
    simp [c8State, logEvent_events, moveEventAt, freshLogger, mkEventLogger]
  rw [hscr, hus, hlen]
  norm_num

/-- C8 (amended): the state-change rate is recomputed only on events carrying
a truthy output hash, where it equals the distinct-state count over the total
event count at that moment; after an event without an output hash it keeps
its previous value, so the claimed equality can fail there (the no-hash event
still enlarges the denominator used at the next recomputation). -/
theorem C8_rate_recompute_amended (s : LoggerState) (ev : ParsonsEvent) (now : ℚ) :
    (ev.output ≠ "" →
      (logEvent now ev s).features.uniqueStates =
        ((mapBump ev.output s.stateHistory).length : ℚ) ∧
      (logEvent now ev s).features.stateChangeRate =
        (logEvent now ev s).features.uniqueStates /
          ((s.events.length + 1 : ℕ) : ℚ)) ∧
    (ev.output = "" →
      (logEvent now ev s).features.stateChangeRate =
        s.features.stateChangeRate) := by
  constructor
  · intro h
    refine ⟨logEvent_us_pos now ev s h, ?_⟩
    rw [logEvent_scr_pos now ev s h, logEvent_us_pos now ev s h]
  · intro h
    exact logEvent_scr_empty now ev s h

/-- C8 witness: both branches of the amended recomputation rule at concrete
inputs. -/
theorem C8_rate_recompute_witness :
    ((logEvent 100 (moveEventAt 100 "h1") freshLogger).features.uniqueStates =
        ((mapBump (moveEventAt 100 "h1").output freshLogger.stateHistory).length : ℚ) ∧
      (logEvent 100 (moveEventAt 100 "h1") freshLogger).features.stateChangeRate =
        (logEvent 100 (moveEventAt 100 "h1") freshLogger).features.uniqueStates /
          ((freshLogger.events.length + 1 : ℕ) : ℚ)) ∧
    (logEvent 200 ({ time := 200, type := "moveOutput", output := "" } : ParsonsEvent)
        freshLogger).features.stateChangeRate =
      freshLogger.features.stateChangeRate :=
  ⟨(C8_rate_recompute_amended freshLogger (moveEventAt 100 "h1") 100).1 (by decide),
    (C8_rate_recompute_amended freshLogger
      ({ time := 200, type := "moveOutput", output := "" } : ParsonsEvent) 200).2 rfl⟩

/-- C9: after every ingest the manipulation-to-feedback ratio equals the
manipulation count divided by max(1, feedback count); and over any event
sequence containing no feedback event, ingested into a fresh engine, the
feedback count stays 0 and the ratio equals the manipulation count — defined
and finite before any feedback. -/
theorem C9_ratio_division_safety :
    (∀ (now : ℚ) (ev : ParsonsEvent) (s : LoggerState),
      (logEvent now ev s).features.manipulationToFeedbackRatio =
        (logEvent now ev s).features.manipulationCount /
          max 1 (logEvent now ev s).features.feedbackCount) ∧
    (∀ (sid stid pid scid : String) (t0 : ℚ) (l : List ParsonsEvent),
      (∀ e ∈ l, e.type ≠ "feedback") →
      (ingestList l (mkEventLogger sid stid pid scid t0)).features.feedbackCount = 0 ∧
      (ingestList l (mkEventLogger sid stid pid scid t0)).features.manipulationToFeedbackRatio =
        (ingestList l (mkEventLogger sid stid pid scid t0)).features.manipulationCount) := by
  refine ⟨logEvent_ratio, ?_⟩
  intro sid stid pid scid t0 l hl
  exact ingestList_no_feedback l _ hl rfl rfl

/-- C9 witness: the ratio invariant after one concrete ingest, and the
feedback-free part over two concrete move events. -/
theorem C9_ratio_division_safety_witness :
    (logEvent 100 (moveEventAt 100 "h1") freshLogger).features.manipulationToFeedbackRatio =
      (logEvent 100 (moveEventAt 100 "h1") freshLogger).features.manipulationCount /
        max 1 (logEvent 100 (moveEventAt 100 "h1") freshLogger).features.feedbackCount ∧
    ((ingestList [moveEventAt 100 "h1", moveEventAt 200 "h2"]
        (mkEventLogger "session" "student" "problem" "school" 0)).features.feedbackCount = 0 ∧
      (ingestList [moveEventAt 100 "h1", moveEventAt 200 "h2"]
          (mkEventLogger "session" "student" "problem" "school" 0)).features.manipulationToFeedbackRatio =
        (ingestList [moveEventAt 100 "h1", moveEventAt 200 "h2"]
            (mkEventLogger "session" "student" "problem" "school" 0)).features.manipulationCount) :=
  ⟨C9_ratio_division_safety.1 100 (moveEventAt 100 "h1") freshLogger,
    C9_ratio_division_safety.2 "session" "student" "problem" "school" 0 _ (by decide)⟩

/-- C10: every canonical line containing the substring `#distractor` anywhere
in the line — not only as a trailing tag — is dropped from the expected
solution sequence by the local validator and by the validation API route,
whose expected sequence is the same kept lines trimmed. -/
theorem C10_distractor_substring_filter (ini line : String)
    (hmem : line ∈ jsSplitNewline ini)
    (hcon : strContains line "#distractor" = true) :
    line ∉ extractCorrectLines ini ∧ line ∉ handlerKeptLines ini ∧
      handlerCorrectLines ini = (handlerKeptLines ini).map jsTrim := by
  refine ⟨?_, ?_, rfl⟩ <;>
  · intro hin
    have hp := (List.mem_filter.mp hin).2
    simp [hcon] at hp

/-- C10 witness: a mid-line mention of the marker drops the line from both
expected sequences. -/
theorem C10_distractor_substring_filter_witness :
    "use the #distractor marker here" ∈
      jsSplitNewline "a\nuse the #distractor marker here\nc" ∧
    strContains "use the #distractor marker here" "#distractor" = true ∧
    ("use the #distractor marker here" ∉
        extractCorrectLines "a\nuse the #distractor marker here\nc" ∧
      "use the #distractor marker here" ∉
        handlerKeptLines "a\nuse the #distractor marker here\nc" ∧
      handlerCorrectLines "a\nuse the #distractor marker here\nc" =
        (handlerKeptLines "a\nuse the #distractor marker here\nc").map jsTrim) :=
  ⟨by decide, by decide,
    C10_distractor_substring_filter _ _ (by decide) (by decide)⟩
